import Mathlib

/-!
Shallow embedding of the ballyregan proxy-fetching pipeline:
`src/ballyregan/fetcher.py` (class `ProxyFetcher`) and
`src/ballyregan/providers/proxy_list_download.py`
(class `ProxyListDownloadProvider`).

Exceptions are modelled with `Except`; network I/O is modelled by passing
the outcome of each request (`session`, `providerResults`) as explicit data.
-/

deriving instance DecidableEq for Except

namespace Ballyregan

/-- Model of Python `str.split(sep)` on one separator character, by
structural recursion over the characters (so splitting `""` yields `[""]`,
and adjacent separators yield empty fields, as in Python). -/
def pySplitAux (sep : Char) : List Char → List Char → List (List Char)
  | [], acc => [acc.reverse]
  | c :: rest, acc =>
    if c = sep then acc.reverse :: pySplitAux sep rest []
    else pySplitAux sep rest (c :: acc)

/-- Model of Python `raw.split(':')` and friends. -/
def pySplit (sep : Char) (s : String) : List String :=
  (pySplitAux sep s.toList []).map List.asString

/-- Model of Python `str.lower()`, one character at a time. -/
def pyLower (s : String) : String := (s.toList.map Char.toLower).asString

/-- Exceptions of `ballyregan.core.exceptions` that appear in the two source
files: `NoInternetConnection`, `NoProxiesFound`, `ProxyGatherException`,
`ProxyParseException`. -/
inductive PErr where
  | noInternetConnection
  | noProxiesFound
  | proxyGatherException
  | proxyParseException
deriving DecidableEq, Repr

/-- Modelled from the spec: the `Proxy` data model (`models.py` is not under
src). Identity, equality and hashing are the triple (protocol, address, port);
the fields are carried exactly as `raw_proxy_to_object` produces them
(strings), since no constructor validation is given for the core. -/
structure Proxy where
  protocol : String
  ip : String
  port : String
deriving DecidableEq, Repr

/-- Modelled from the spec: the fixed protocol enumeration of
`Protocols.values()` (`models.py` is not under src): http, https, socks4,
socks5. -/
def Protocols.values : List String := ["http", "https", "socks4", "socks5"]

/-- Outcome of one HTTP request: the `ok` flag and `text.splitlines()`. -/
structure Response where
  ok : Bool
  textLines : List String

/-- One provider session: for each protocol, `none` when
`self._session.get` raises, otherwise the response received. -/
def Session : Type := String → Option Response

/-- Loop body of `ProxyListDownloadProvider._get_raw_proxies`: iterate the
protocols in order, abort with `ProxyGatherException` when a request raises
or the response is not ok, otherwise append the protocol-prefixed lines to
the accumulator. -/
def get_raw_proxies_from (session : Session) :
    List String → List String → Except PErr (List String)
  | [], proxies => .ok proxies
  | protocol :: rest, proxies =>
    match session protocol with
    | none => .error .proxyGatherException
    | some response =>
      if response.ok = false then .error .proxyGatherException
      else
        get_raw_proxies_from session rest
          (proxies ++ response.textLines.map (fun proxy => protocol ++ ":" ++ proxy))

/-- Embedding of `ProxyListDownloadProvider._get_raw_proxies` (lines 17-32). -/
def get_raw_proxies (session : Session) : Except PErr (List String) :=
  get_raw_proxies_from session Protocols.values []

/-- Embedding of `ProxyListDownloadProvider.raw_proxy_to_object`
(lines 34-44): `raw_proxy.split(':')` unpacked into exactly three names
raises `ValueError`, turned into `ProxyParseException`; otherwise a `Proxy`
is built with the protocol lowercased. -/
def raw_proxy_to_object (raw_proxy : String) : Except PErr Proxy :=
  match pySplit ':' raw_proxy with
  | [protocol, ip, port] => .ok { protocol := pyLower protocol, ip := ip, port := port }
  | _ => .error .proxyParseException

/-- The spec's well-formedness convention for a raw candidate string
(section 6): exactly three colon-separated fields and a numeric port. -/
def wellFormedPerSpec (raw : String) : Bool :=
  match pySplit ':' raw with
  | [_, _, port] => decide (port ≠ "") && port.toList.all Char.isDigit
  | _ => false

/-- Modelled from the spec: `IProxyProvider.gather` (providers/base.py is not
under src). It obtains the raw strings (propagating a transport error) and
parses each one, skipping — not propagating — any candidate whose parse
fails (spec section 4.2). -/
def gather (raw : Except PErr (List String)) (parse : String → Except PErr Proxy) :
    Except PErr (List Proxy) :=
  match raw with
  | .error e => .error e
  | .ok raws => .ok (raws.filterMap (fun r => (parse r).toOption))

/-- State of a `ProxyFetcher` (fetcher.py lines 20-35): the providers are
represented by the outcome each `provider.gather()` call would deliver;
the `ProxyFilterer.filter` and `ProxyValidator.filter_valid_proxies`
collaborators (not under src) are abstract functions taking the same
arguments as in `_gather`. -/
structure ProxyFetcher where
  providerResults : List (Except PErr (List Proxy))
  filterer : List String → List String → List Proxy → List Proxy
  validator : List Proxy → Nat → List Proxy

/-- Embedding of `ProxyFetcher.__post_init__` (lines 37-45) as a checked
constructor: when `has_internet_connection()` is false it raises
`NoInternetConnection` before anything else; otherwise the fetcher is built. -/
def mkProxyFetcher (hasInternetConnection : Bool)
    (providerResults : List (Except PErr (List Proxy)))
    (filterer : List String → List String → List Proxy → List Proxy)
    (validator : List Proxy → Nat → List Proxy) : Except PErr ProxyFetcher :=
  if hasInternetConnection = false then .error .noInternetConnection
  else .ok { providerResults := providerResults, filterer := filterer, validator := validator }

/-- Consuming the `executor.map` generator (fetcher.py lines 64-71): results
come back in provider order and the first exception raised by a
`provider.gather()` re-raises when the chained generator is consumed. -/
def collectGathered : List (Except PErr (List Proxy)) → Except PErr (List Proxy)
  | [] => .ok []
  | result :: rest =>
    match result with
    | .error e => .error e
    | .ok proxies => (collectGathered rest).map (fun others => proxies ++ others)

/-- Embedding of `ProxyFetcher._get_all_proxies_from_providers`
(lines 60-71): `list(set(chain.from_iterable(proxies_generator)))` —
consume every provider result and deduplicate under `Proxy` equality. -/
def ProxyFetcher.get_all_proxies_from_providers (f : ProxyFetcher) :
    Except PErr (List Proxy) :=
  (collectGathered f.providerResults).map List.dedup

/-- Embedding of `ProxyFetcher._gather` (lines 73-100): aggregate, filter,
validate with the limit, and raise `NoProxiesFound` when the validated list
is empty. -/
def ProxyFetcher.gatherPipeline (f : ProxyFetcher)
    (protocols anonymities : List String) (limit : Nat) : Except PErr (List Proxy) :=
  match f.get_all_proxies_from_providers with
  | .error e => .error e
  | .ok proxies =>
    let filtered_proxies := f.filterer protocols anonymities proxies
    let valid_proxies := f.validator filtered_proxies limit
    if valid_proxies.isEmpty then .error .noProxiesFound else .ok valid_proxies

/-- Embedding of `ProxyFetcher.get_one` (lines 102-115): returns exactly
`self._gather(protocols, anonymities, limit=1)` — which is a list. -/
def ProxyFetcher.get_one (f : ProxyFetcher)
    (protocols anonymities : List String) : Except PErr (List Proxy) :=
  f.gatherPipeline protocols anonymities 1

/-- Embedding of `ProxyFetcher.get` (lines 117-133). -/
def ProxyFetcher.get (f : ProxyFetcher)
    (protocols anonymities : List String) (limit : Nat) : Except PErr (List Proxy) :=
  f.gatherPipeline protocols anonymities limit

/-- Global logger configuration touched by `core.logger.init_logger` (not
under src): what matters for the claims is that reinitialisation is
observable, so the state records the debug flag and how many times
`init_logger` ran. -/
structure LoggerState where
  debugEnabled : Bool
  initCount : Nat
deriving DecidableEq, Repr

/-- Modelled from the spec: `init_logger` (core/logger.py is not under src)
reconfigures the global logger for the given debug flag. -/
def init_logger (debug : Bool) (ls : LoggerState) : LoggerState :=
  { debugEnabled := debug, initCount := ls.initCount + 1 }

/-- Values storable in a Python attribute, as far as the claims need. -/
inductive Val where
  | bool (b : Bool)
  | nat (n : Nat)
  | str (s : String)
deriving DecidableEq, Repr

/-- Python truthiness of a `Val`, as `init_logger(__value)` would coerce it. -/
def Val.asBool : Val → Bool
  | .bool b => b
  | .nat n => n != 0
  | .str s => s != ""

/-- Embedding of `ProxyFetcher.__setattr__` (fetcher.py lines 47-51): the
object's attribute dictionary is an association list read through
`List.lookup`; assigning `debug` first calls `init_logger(__value)`, then
every assignment stores the value with `super().__setattr__`. -/
def setattr (attrs : List (String × Val)) (ls : LoggerState)
    (name : String) (value : Val) : List (String × Val) × LoggerState :=
  let ls' := if name = "debug" then init_logger value.asBool ls else ls
  ((name, value) :: attrs, ls')

/-- Sample proxies and fetchers used by the concrete witnesses. -/
def proxyA : Proxy := { protocol := "http", ip := "1.2.3.4", port := "8080" }

def proxyB : Proxy := { protocol := "socks5", ip := "5.6.7.8", port := "1080" }

/-- A filterer that restricts nothing (both allow-lists empty). -/
def passFilterer : List String → List String → List Proxy → List Proxy := fun _ _ l => l

/-- A validator for which every candidate probes alive: it honours the
limit (0 meaning unbounded) and otherwise keeps everything. -/
def takeValidator : List Proxy → Nat → List Proxy :=
  fun l n => if n = 0 then l else l.take n

/-- A validator for which every probe fails. -/
def deadValidator : List Proxy → Nat → List Proxy := fun _ _ => []

def okFetcher : ProxyFetcher :=
  { providerResults := [.ok [proxyA, proxyB], .ok [proxyA]],
    filterer := passFilterer, validator := takeValidator }

def failingFetcher : ProxyFetcher :=
  { providerResults := [.ok [proxyA], .error .proxyGatherException],
    filterer := passFilterer, validator := takeValidator }

def abortedFetcher : ProxyFetcher :=
  { providerResults := [.ok [proxyB], .error .proxyGatherException],
    filterer := passFilterer, validator := takeValidator }

def deadFetcher : ProxyFetcher :=
  { providerResults := [.ok [proxyA]],
    filterer := passFilterer, validator := deadValidator }

/-- Request outcome for one protocol of `_get_raw_proxies`: true when
`self._session.get` raises or the response is not ok. -/
def requestFails (session : Session) (protocol : String) : Bool :=
  match session protocol with
  | none => true
  | some response => !response.ok

/-- The protocol-prefixed lines one successful request contributes. -/
def protocolLines (session : Session) (protocol : String) : List String :=
  match session protocol with
  | some response => response.textLines.map (fun proxy => protocol ++ ":" ++ proxy)
  | none => []

/-- A session whose four requests all succeed. -/
def sessionAllOk : Session := fun protocol =>
  if protocol = "http" then some { ok := true, textLines := ["1.2.3.4:8080"] }
  else some { ok := true, textLines := [] }

/-- A session whose socks4 request fails (non-ok response). -/
def sessionOneBad : Session := fun protocol =>
  if protocol = "socks4" then some { ok := false, textLines := [] }
  else some { ok := true, textLines := ["1.2.3.4:8080"] }

theorem get_raw_proxies_from_ok (session : Session) (ps : List String)
    (h : ∀ p ∈ ps, requestFails session p = false) (acc : List String) :
    get_raw_proxies_from session ps acc
      = .ok (acc ++ (ps.map (protocolLines session)).flatten) := by
  induction ps generalizing acc with
  | nil => simp [get_raw_proxies_from]
  | cons p rest ih =>
    have hp : requestFails session p = false := h p (List.mem_cons_self p rest)
    unfold get_raw_proxies_from
    cases hsp : session p with
    | none => simp [requestFails, hsp] at hp
    | some r =>
      simp only [requestFails, hsp, Bool.not_eq_false'] at hp
      simp only [hp, Bool.true_eq_false, if_false]
      rw [ih (fun q hq => h q (List.mem_cons_of_mem p hq))]
      simp [protocolLines, hsp]

theorem get_raw_proxies_from_err (session : Session) (ps : List String)
    (h : ∃ p ∈ ps, requestFails session p = true) (acc : List String) :
    get_raw_proxies_from session ps acc = .error .proxyGatherException := by
  induction ps generalizing acc with
  | nil => simp at h
  | cons p rest ih =>
    unfold get_raw_proxies_from
    cases hsp : session p with
    | none => rfl
    | some r =>
      by_cases hok : r.ok = false
      · simp [hok]
      · simp only [Bool.not_eq_false] at hok
        simp only [hok, Bool.true_eq_false, if_false]
        apply ih
        rcases h with ⟨q, hq, hfail⟩
        rcases List.mem_cons.1 hq with rfl | hq'
        · simp [requestFails, hsp, hok] at hfail
        · exact ⟨q, hq', hfail⟩

theorem get_raw_proxies_from_error_eq (session : Session) (ps : List String)
    (e : PErr) :
    ∀ acc, get_raw_proxies_from session ps acc = .error e →
      e = .proxyGatherException := by
  induction ps with
  | nil => intro acc h; simp [get_raw_proxies_from] at h
  | cons p rest ih =>
    intro acc h
    unfold get_raw_proxies_from at h
    cases hsp : session p with
    | none =>
      rw [hsp] at h
      simp only [Except.error.injEq] at h
      exact h.symm
    | some r =>
      rw [hsp] at h
      by_cases hok : r.ok = false
      · simp only [hok, if_true, Except.error.injEq] at h
        exact h.symm
      · simp only [hok, if_false] at h
        exact ih _ h

theorem collectGathered_ok (ls : List (List Proxy)) :
    collectGathered (ls.map Except.ok) = .ok ls.flatten := by
  induction ls with
  | nil => rfl
  | cons l rest ih => simp [collectGathered, ih, Except.map]

theorem collectGathered_error_exists (results : List (Except PErr (List Proxy)))
    (e : PErr) (h : Except.error e ∈ results) :
    ∃ e', collectGathered results = .error e' := by
  induction results with
  | nil => cases h
  | cons r rest ih =>
    rcases List.mem_cons.1 h with rfl | h'
    · exact ⟨e, rfl⟩
    · cases r with
      | error e0 => exact ⟨e0, rfl⟩
      | ok l =>
        rcases ih h' with ⟨e', he'⟩
        exact ⟨e', by simp [collectGathered, he', Except.map]⟩

theorem except_map_error {ε α β : Type} (f : α → β) (x : Except ε α) (e : ε)
    (h : x.map f = .error e) : x = .error e := by
  cases x with
  | error e0 => simpa [Except.map] using h
  | ok a => simp [Except.map] at h

theorem collectGathered_error_mem (results : List (Except PErr (List Proxy)))
    (e : PErr) (h : collectGathered results = .error e) :
    Except.error e ∈ results := by
  induction results with
  | nil => simp [collectGathered] at h
  | cons r rest ih =>
    cases r with
    | error e0 =>
      simp only [collectGathered, Except.error.injEq] at h
      subst h
      exact List.mem_cons_self _ _
    | ok l =>
      simp only [collectGathered] at h
      exact List.mem_cons_of_mem _ (ih (except_map_error _ _ _ h))

theorem gatherPipeline_cases (f : ProxyFetcher) (p a : List String) (n : Nat) :
    (∃ e, f.get_all_proxies_from_providers = .error e
      ∧ f.gatherPipeline p a n = .error e)
    ∨ (∃ proxies, f.get_all_proxies_from_providers = .ok proxies
      ∧ f.gatherPipeline p a n =
          (if (f.validator (f.filterer p a proxies) n).isEmpty
            then .error .noProxiesFound
            else .ok (f.validator (f.filterer p a proxies) n))) := by
  unfold ProxyFetcher.gatherPipeline
  cases hg : f.get_all_proxies_from_providers with
  | error e => exact Or.inl ⟨e, rfl, rfl⟩
  | ok proxies => exact Or.inr ⟨proxies, rfl, rfl⟩

theorem gatherPipeline_ok_ne_nil (f : ProxyFetcher) (p a : List String) (n : Nat)
    (l : List Proxy) (h : f.gatherPipeline p a n = .ok l) : l ≠ [] := by
  rcases gatherPipeline_cases f p a n with ⟨e, _, hp⟩ | ⟨proxies, _, hp⟩
  · rw [hp] at h
    exact absurd h (by simp)
  · rw [hp] at h
    by_cases he : (f.validator (f.filterer p a proxies) n).isEmpty
    · rw [if_pos he] at h
      exact absurd h (by simp)
    · rw [if_neg he] at h
      have hl : f.validator (f.filterer p a proxies) n = l := by
        exact Except.ok.inj h
      rw [← hl]
      simpa [List.isEmpty_iff] using he

/-- C5: constructing a `ProxyFetcher` without outbound connectivity fails
immediately with `NoInternetConnection`, whatever the providers, filterer
and validator would have contributed (so no pipeline work can matter), and
construction succeeds, returning the assembled fetcher, exactly when the
connectivity check passes. -/
theorem construction_requires_connectivity
    (providerResults : List (Except PErr (List Proxy)))
    (filterer : List String → List String → List Proxy → List Proxy)
    (validator : List Proxy → Nat → List Proxy) :
    mkProxyFetcher false providerResults filterer validator
      = .error .noInternetConnection
    ∧ mkProxyFetcher true providerResults filterer validator
      = .ok { providerResults := providerResults, filterer := filterer,
              validator := validator } :=
  ⟨rfl, rfl⟩

/-- C8: `get_one(protocols, anonymities)` produces exactly the same result
as `get(protocols, anonymities, limit=1)` — both are literally
`self._gather(protocols, anonymities, limit=1)`, so the value on success
and the error on failure coincide. -/
theorem get_one_eq_get_limit_one (f : ProxyFetcher)
    (protocols anonymities : List String) :
    f.get_one protocols anonymities = f.get protocols anonymities 1 := rfl

/-- C3: on a successful run, `get_one` hands back the one-element LIST that
`_gather(limit=1)` produced, not a bare Proxy — although its annotation
says `-> Proxy` and its docstring says it returns a Proxy. Evaluating a
fetcher with one provider and an all-alive validator exhibits the list. -/
theorem get_one_returns_singleton_list :
    okFetcher.get_one [] [] = .ok [proxyB] := by decide

/-- C4: `get` and `get_one` never return an empty list — a successful
result is nonempty — and whenever the validation step yields the empty
list, the call raises `NoProxiesFound`. -/
theorem no_empty_list_returned (f : ProxyFetcher)
    (protocols anonymities : List String) (limit : Nat) :
    (∀ l, f.get protocols anonymities limit = .ok l → l ≠ [])
    ∧ (∀ l, f.get_one protocols anonymities = .ok l → l ≠ [])
    ∧ (∀ proxies, f.get_all_proxies_from_providers = .ok proxies →
        f.validator (f.filterer protocols anonymities proxies) limit = [] →
        f.get protocols anonymities limit = .error .noProxiesFound) := by
  refine ⟨?_, ?_, ?_⟩
  · intro l h
    exact gatherPipeline_ok_ne_nil f protocols anonymities limit l h
  · intro l h
    exact gatherPipeline_ok_ne_nil f protocols anonymities 1 l h
  · intro proxies hagg hempty
    show f.gatherPipeline protocols anonymities limit = .error .noProxiesFound
    rcases gatherPipeline_cases f protocols anonymities limit with
      ⟨e, hg, hp⟩ | ⟨proxies', hg, hp⟩
    · rw [hagg] at hg
      exact absurd hg (by simp)
    · rw [hagg] at hg
      have : proxies = proxies' := Except.ok.inj hg
      subst this
      rw [hp, hempty]
      simp

/-- C6: every successful aggregation result is duplicate-free under `Proxy`
equality, the (protocol, address, port) triple: `list(set(...))` cannot
contain two equal entries however many providers emitted the candidate. -/
theorem aggregation_result_nodup (f : ProxyFetcher) (l : List Proxy)
    (h : f.get_all_proxies_from_providers = .ok l) : l.Nodup := by
  unfold ProxyFetcher.get_all_proxies_from_providers at h
  cases hc : collectGathered f.providerResults with
  | error e =>
    rw [hc] at h
    simp [Except.map] at h
  | ok m =>
    rw [hc] at h
    simp only [Except.map, Except.ok.injEq] at h
    rw [← h]
    exact List.nodup_dedup m

/-- C1 counterexample: with one healthy provider and one whose `gather()`
raises `ProxyGatherException`, the aggregation re-raises the exception when
the `executor.map` generator is consumed instead of returning the healthy
provider's candidates. -/
theorem aggregation_abort_counterexample :
    abortedFetcher.get_all_proxies_from_providers = .error .proxyGatherException
    ∧ abortedFetcher.get_all_proxies_from_providers ≠ .ok [proxyB] := by decide

/-- C1 amended: when any provider's `gather()` raises, the aggregation step
raises (some provider error propagates) rather than merging the rest; the
merged, deduplicated candidate list is returned exactly in the runs where
every provider's `gather()` succeeded. -/
theorem aggregation_requires_all_providers (f : ProxyFetcher) :
    (∀ e, Except.error e ∈ f.providerResults →
      ∃ e', f.get_all_proxies_from_providers = .error e')
    ∧ (∀ ls : List (List Proxy), f.providerResults = ls.map Except.ok →
      f.get_all_proxies_from_providers = .ok ls.flatten.dedup) := by
  constructor
  · intro e he
    rcases collectGathered_error_exists f.providerResults e he with ⟨e', he'⟩
    exact ⟨e', by simp [ProxyFetcher.get_all_proxies_from_providers, he', Except.map]⟩
  · intro ls hls
    simp [ProxyFetcher.get_all_proxies_from_providers, hls, collectGathered_ok,
      Except.map]

/-- C2 counterexample: a provider whose `gather()` raises
`ProxyGatherException` makes `get` surface that very exception to the
caller — a third observable error besides `NoInternetConnection` and
`NoProxiesFound`. -/
theorem get_error_counterexample :
    failingFetcher.get [] [] 0 = .error .proxyGatherException
    ∧ PErr.proxyGatherException ≠ PErr.noProxiesFound
    ∧ PErr.proxyGatherException ≠ PErr.noInternetConnection := by decide

/-- C2 amended: an error raised by `get` is either `NoProxiesFound` or the
re-raised error of some provider's `gather()`; a provider's `gather()` only
re-raises the error of its raw fetch (a parse failure is skipped, never
propagated), and `_get_raw_proxies` can only raise `ProxyGatherException` —
so callers see a valid list, `NoProxiesFound`, `ProxyGatherException`, or
`NoInternetConnection` at construction. -/
theorem get_error_taxonomy (f : ProxyFetcher) (protocols anonymities : List String)
    (limit : Nat) (e : PErr) :
    (f.get protocols anonymities limit = .error e →
      e = .noProxiesFound ∨ Except.error e ∈ f.providerResults)
    ∧ (∀ (raw : Except PErr (List String)) (parse : String → Except PErr Proxy)
        (e' : PErr), gather raw parse = .error e' → raw = .error e')
    ∧ (∀ (session : Session) (e' : PErr),
        get_raw_proxies session = .error e' → e' = .proxyGatherException) := by
  refine ⟨?_, ?_, ?_⟩
  · intro h
    have h' : f.gatherPipeline protocols anonymities limit = .error e := h
    rcases gatherPipeline_cases f protocols anonymities limit with
      ⟨e0, hg, hp⟩ | ⟨proxies, hg, hp⟩
    · rw [hp] at h'
      have he : e0 = e := Except.error.inj h'
      subst he
      right
      exact collectGathered_error_mem f.providerResults e0
        (except_map_error List.dedup (collectGathered f.providerResults) e0 hg)
    · rw [hp] at h'
      by_cases hval : (f.validator (f.filterer protocols anonymities proxies) limit).isEmpty
      · rw [if_pos hval] at h'
        left
        exact (Except.error.inj h').symm
      · rw [if_neg hval] at h'
        exact absurd h' (by simp)
  · intro raw parse e' hparse
    cases raw with
    | error e0 => simpa [gather] using hparse
    | ok raws => simp [gather] at hparse
  · intro session e' hraw
    exact get_raw_proxies_from_error_eq session Protocols.values e' [] hraw

/-- C2 amended witness at a concrete failing provider. -/
theorem get_error_taxonomy_witness :
    PErr.proxyGatherException = PErr.noProxiesFound
    ∨ Except.error PErr.proxyGatherException ∈ failingFetcher.providerResults :=
  (get_error_taxonomy failingFetcher [] [] 0 .proxyGatherException).1 (by decide)

/-- C1 amended witness: one fetcher with a failing provider aborts, one
with only healthy providers returns the deduplicated merge. -/
theorem aggregation_requires_all_providers_witness :
    (∃ e', failingFetcher.get_all_proxies_from_providers = .error e')
    ∧ okFetcher.get_all_proxies_from_providers
      = .ok ([[proxyA, proxyB], [proxyA]] : List (List Proxy)).flatten.dedup :=
  ⟨(aggregation_requires_all_providers failingFetcher).1 .proxyGatherException
      (by decide),
   (aggregation_requires_all_providers okFetcher).2 [[proxyA, proxyB], [proxyA]]
      (by decide)⟩

/-- C4 witness: a fetcher whose probes all fail raises `NoProxiesFound`. -/
theorem no_empty_list_returned_witness :
    deadFetcher.get [] [] 0 = .error .noProxiesFound :=
  (no_empty_list_returned deadFetcher [] [] 0).2.2 [proxyA] (by decide) (by decide)

/-- C6 witness: the aggregation of `okFetcher`, whose providers repeat
`proxyA`, is duplicate-free. -/
theorem aggregation_result_nodup_witness : ([proxyB, proxyA] : List Proxy).Nodup :=
  aggregation_result_nodup okFetcher [proxyB, proxyA] (by decide)

/-- C7 counterexample: the raw string with a non-numeric port is malformed
per the spec convention, yet `raw_proxy_to_object` accepts it instead of
raising `ProxyParseException` — the port is never checked. -/
theorem raw_proxy_nonnumeric_port_counterexample :
    wellFormedPerSpec "http:1.2.3.4:abc" = false
    ∧ raw_proxy_to_object "http:1.2.3.4:abc"
        = .ok { protocol := "http", ip := "1.2.3.4", port := "abc" }
    ∧ ¬ (raw_proxy_to_object "http:1.2.3.4:abc" = .error .proxyParseException
          ↔ wellFormedPerSpec "http:1.2.3.4:abc" = false) := by decide

/-- C7 amended: `raw_proxy_to_object` raises `ProxyParseException` exactly
when the colon-split of the raw string does not have exactly three fields;
on exactly three fields it returns the candidate with the protocol
lowercased, the port being passed through unexamined. -/
theorem raw_proxy_to_object_spec (raw_proxy : String) :
    (raw_proxy_to_object raw_proxy = .error .proxyParseException
      ↔ (pySplit ':' raw_proxy).length ≠ 3)
    ∧ (∀ protocol ip port, pySplit ':' raw_proxy = [protocol, ip, port] →
        raw_proxy_to_object raw_proxy
          = .ok { protocol := pyLower protocol, ip := ip, port := port }) := by
  constructor
  · unfold raw_proxy_to_object
    rcases hs : pySplit ':' raw_proxy with _ | ⟨a, _ | ⟨b, _ | ⟨c, _ | ⟨d, t⟩⟩⟩⟩ <;>
      simp
  · intro protocol ip port h
    unfold raw_proxy_to_object
    rw [h]

/-- C7 amended witness: a three-field raw string with upper-case protocol
parses to the lowercased candidate. -/
theorem raw_proxy_to_object_spec_witness :
    raw_proxy_to_object "HTTP:1.2.3.4:8080"
      = .ok { protocol := pyLower "HTTP", ip := "1.2.3.4", port := "8080" } :=
  (raw_proxy_to_object_spec "HTTP:1.2.3.4:8080").2 "HTTP" "1.2.3.4" "8080" (by decide)

/-- Initial logger configuration for the C9 scenario. -/
def initialLogger : LoggerState := { debugEnabled := false, initCount := 0 }

/-- C9 counterexample: assigning `debug := true` reinitializes the global
logger — the write does more than store the value. -/
theorem debug_assignment_reinitializes_logger :
    (setattr [("debug", .bool false)] initialLogger "debug" (.bool true)).2
      ≠ initialLogger
    ∧ (setattr [("debug", .bool false)] initialLogger "debug" (.bool true)).2
      = init_logger true initialLogger := by decide

/-- C9 amended: `__setattr__` stores the assigned value and leaves every
other attribute unchanged; assigning `debug` additionally reinitializes the
global logger via `init_logger`, and only a `debug` assignment touches the
logger. -/
theorem setattr_spec (attrs : List (String × Val)) (ls : LoggerState)
    (name : String) (value : Val) :
    ((setattr attrs ls name value).1.lookup name = some value)
    ∧ (∀ other, other ≠ name →
        (setattr attrs ls name value).1.lookup other = attrs.lookup other)
    ∧ (name = "debug" →
        (setattr attrs ls name value).2 = init_logger value.asBool ls)
    ∧ (name ≠ "debug" → (setattr attrs ls name value).2 = ls) := by
  refine ⟨?_, ?_, ?_, ?_⟩
  · simp [setattr, List.lookup]
  · intro other hother
    have hne : (other == name) = false := by
      simp [hother]
    simp [setattr, List.lookup, hne]
  · intro h
    simp [setattr, h]
  · intro h
    simp [setattr, h]

/-- C9 amended witness: assigning a non-debug attribute leaves the logger
untouched. -/
theorem setattr_spec_witness :
    (setattr [("debug", Val.bool false)] initialLogger "loop" (.nat 5)).2
      = initialLogger :=
  (setattr_spec [("debug", Val.bool false)] initialLogger "loop" (.nat 5)).2.2.2
    (by decide)

/-- C10: `_get_raw_proxies` is all-or-nothing over the fixed protocol list:
if any protocol's request raises or comes back non-ok it raises
`ProxyGatherException`, discarding everything already collected; when every
request succeeds it returns the protocol-prefixed lines of all protocols in
order (possibly the empty list). -/
theorem get_raw_proxies_all_or_nothing (session : Session) :
    ((∃ p ∈ Protocols.values, requestFails session p = true) →
      get_raw_proxies session = .error .proxyGatherException)
    ∧ ((∀ p ∈ Protocols.values, requestFails session p = false) →
      get_raw_proxies session
        = .ok ((Protocols.values.map (protocolLines session)).flatten)) :=
  ⟨fun h => get_raw_proxies_from_err session Protocols.values h [],
   fun h => by simpa using get_raw_proxies_from_ok session Protocols.values h []⟩

/-- C10 witness: a session with one bad protocol aborts; a session whose
four requests succeed returns every prefixed line. -/
theorem get_raw_proxies_all_or_nothing_witness :
    get_raw_proxies sessionOneBad = .error .proxyGatherException
    ∧ get_raw_proxies sessionAllOk
      = .ok ((Protocols.values.map (protocolLines sessionAllOk)).flatten) :=
  ⟨(get_raw_proxies_all_or_nothing sessionOneBad).1 ⟨"socks4", by decide, by decide⟩,
   (get_raw_proxies_all_or_nothing sessionAllOk).2 (by decide)⟩

end Ballyregan
